import Mathlib

/-!
Verification of the burrito wrapper (`src/wrapper/src/main.rs`), a
self-extracting application installer and launcher.

Paths are modelled with Unix semantics, as the component view of a Rust
`Path`/`PathBuf`; the filesystem is a partial map from paths to file
entries; fallible OS calls are injected as boolean outcomes so that each
error branch of the source is reachable in the model.  The external
collaborators (`serde_json`, the snap decompressor) are injected as
values or functions; the Foilz binary parser lives in the `archiver`
module, which is not part of the sources, and is therefore modelled from
the spec where noted.
-/

namespace Burrito

/-- One path component, as in the component view of a Rust `Path`:
`..` is `parentDir`; `.` and empty segments are dropped by parsing. -/
inductive Component where
  | parentDir : Component
  | normal : String → Component
deriving DecidableEq, Repr

/-- A filesystem path: whether it is absolute (has a root) plus its
components, matching the component view of a Rust `PathBuf` under Unix
rules. -/
structure FsPath where
  absolute : Bool
  components : List Component
deriving DecidableEq, Repr

/-- Split a character list on the separator character `/`, keeping empty
segments. -/
def splitSlash : List Char → List (List Char)
  | [] => [[]]
  | c :: rest =>
    if c = '/' then [] :: splitSlash rest
    else
      match splitSlash rest with
      | [] => [[c]]
      | seg :: segs => (c :: seg) :: segs

/-- Turn one raw segment into a component: empty and `.` segments vanish,
`..` becomes `parentDir`, anything else is a normal component. -/
def segComponent (seg : List Char) : Option Component :=
  if seg = [] then none
  else if seg = ['.'] then none
  else if seg = ['.', '.'] then some Component.parentDir
  else some (Component.normal (String.mk seg))

/-- Parse a Rust path string under Unix rules into its component view:
absolute iff it starts with the separator, components from the
slash-separated segments. -/
def parsePath (s : String) : FsPath :=
  { absolute := s.data.head? = some '/',
    components := (splitSlash s.data).filterMap segComponent }

/-- Rust `PathBuf::push`: an absolute argument replaces the whole path,
a relative one appends its components. -/
def FsPath.push (p q : FsPath) : FsPath :=
  if q.absolute then q
  else { absolute := p.absolute, components := p.components ++ q.components }

/-- Rust `Path::parent`: `none` for an empty or root-only path, otherwise
the path with its last component dropped. -/
def FsPath.parent (p : FsPath) : Option FsPath :=
  if p.components = [] then none
  else some { absolute := p.absolute, components := p.components.dropLast }

/-- Release metadata: the two fields of `PayloadMetadata` that the
wrapper reads (`erts_version` and `app_version`). -/
structure PayloadMetadata where
  erts_version : String
  app_version : String
deriving DecidableEq, Repr

/-- One file record of the Foilz archive (`FoilzFileRecord`): relative
path, mode bits and content bytes. -/
structure FoilzFileRecord where
  file_path : String
  file_mode : Nat
  file_data : List Nat
deriving DecidableEq, Repr

/-- The parsed Foilz archive (`FoilzPayload`): an ordered list of file
records. -/
structure FoilzPayload where
  files : List FoilzFileRecord
deriving DecidableEq, Repr

/-- The wrapper's error kinds.  `errors.rs` is not under `src/`; the
variants and their payloads are exactly the ones constructed in
`main.rs`. -/
inductive WrapperError where
  | MetadataCorrupted
  | PayloadDecompressFailed
  | ExtractInvalidInstallDir
  | ExtractMkdirFailed : String → WrapperError
  | ExtractFileWriteFailed : String → WrapperError
  | ExtractChmodFailed : String → WrapperError
  | ExtractCannotComputeInstallDir
deriving DecidableEq, Repr

/-- Contents and permission bits of one file on disk.  `mode = none`
stands for default permissions, never explicitly set. -/
structure FileEntry where
  content : List Nat
  mode : Option Nat
deriving DecidableEq, Repr

/-- The filesystem, as a partial map from paths to file entries. -/
def FsState : Type := FsPath → Option FileEntry

/-- Update the entry stored at one path. -/
def FsState.set (fs : FsState) (p : FsPath) (e : FileEntry) : FsState :=
  fun q => if q = p then some e else fs q

/-- The empty filesystem. -/
def FsState.empty : FsState := fun _ => none

/-- Injected outcomes of the fallible OS calls made by the installer:
whether `create_dir_all`, `File::create`, `write_all` and
`set_permissions` succeed at a given path, plus the message carried by a
failed `set_permissions`. -/
structure OsEnv where
  mkdirOk : FsPath → Bool
  createOk : FsPath → Bool
  writeOk : FsPath → Bool
  chmodOk : FsPath → Bool
  chmodMsg : String

/-- An `OsEnv` in which every OS call succeeds. -/
def OsEnv.allOk : OsEnv :=
  { mkdirOk := fun _ => true, createOk := fun _ => true,
    writeOk := fun _ => true, chmodOk := fun _ => true, chmodMsg := "" }

/-- `write_payload_file` from `main.rs`: join the record's path onto the
destination, take the parent (failing with `ExtractInvalidInstallDir`
when there is none), create all directories, create the file (truncating
existing content but keeping existing permissions), write the content,
and, on Unix-like platforms only, apply the record's mode bits.  The
result is the filesystem after every effect that happened, plus the
error if any. -/
def writePayloadFile (unixLike : Bool) (os : OsEnv) (record : FoilzFileRecord)
    (destinationPath : FsPath) (fs : FsState) : FsState × Option WrapperError :=
  let full_path := destinationPath.push (parsePath record.file_path)
  match full_path.parent with
  | none => (fs, some WrapperError.ExtractInvalidInstallDir)
  | some parent_path =>
    if os.mkdirOk parent_path = false then
      (fs, some (WrapperError.ExtractMkdirFailed "Could not create all install directories"))
    else if os.createOk full_path = false then
      (fs, some (WrapperError.ExtractFileWriteFailed "Could not create file"))
    else
      let keptMode : Option Nat := (fs full_path).bind FileEntry.mode
      let fs1 := fs.set full_path { content := [], mode := keptMode }
      if os.writeOk full_path = false then
        (fs1, some (WrapperError.ExtractFileWriteFailed "Could not write data to file"))
      else
        let fs2 := fs1.set full_path { content := record.file_data, mode := keptMode }
        if unixLike then
          if os.chmodOk full_path = false then
            (fs2, some (WrapperError.ExtractChmodFailed os.chmodMsg))
          else
            (fs2.set full_path { content := record.file_data, mode := some record.file_mode }, none)
        else
          (fs2, none)

/-- The write loop of `decompress_payload`: records are written in order
and the first error aborts the loop, keeping the filesystem reached so
far.  The counter indexes the per-record OS outcomes. -/
def installRecords (unixLike : Bool) (os : Nat → OsEnv) (destinationPath : FsPath) :
    Nat → FsState → List FoilzFileRecord → FsState × Option WrapperError
  | _, fs, [] => (fs, none)
  | k, fs, record :: rest =>
    match writePayloadFile unixLike (os k) record destinationPath fs with
    | (fs1, some e) => (fs1, some e)
    | (fs1, none) => installRecords unixLike os destinationPath (k + 1) fs1 rest

/-- Modelled from the spec: a big-endian 32-bit read, the base of the
Foilz length and mode fields (the `archiver` module defining the binrw
layout is not under `src/`). -/
def readU32Be : List Nat → Option (Nat × List Nat)
  | b0 :: b1 :: b2 :: b3 :: rest =>
    some (((b0 * 256 + b1) * 256 + b2) * 256 + b3, rest)
  | _ => none

/-- Modelled from the spec: a big-endian 64-bit read, used for the
content length. -/
def readU64Be (bs : List Nat) : Option (Nat × List Nat) :=
  match readU32Be bs with
  | none => none
  | some (hi, rest) =>
    match readU32Be rest with
    | none => none
    | some (lo, rest2) => some (hi * 4294967296 + lo, rest2)

/-- Modelled from the spec: read exactly `n` bytes, failing on truncated
input. -/
def readBytes (n : Nat) (bs : List Nat) : Option (List Nat × List Nat) :=
  if n ≤ bs.length then some (bs.take n, bs.drop n) else none

/-- Modelled from the spec: one Foilz record — 32-bit path length, path
bytes, 32-bit mode, 64-bit content length, content bytes; any truncated
field fails the parse. -/
def readRecord (bs : List Nat) : Option (FoilzFileRecord × List Nat) :=
  match readU32Be bs with
  | none => none
  | some (pathLen, r1) =>
    match readBytes pathLen r1 with
    | none => none
    | some (pathBytes, r2) =>
      match readU32Be r2 with
      | none => none
      | some (mode, r3) =>
        match readU64Be r3 with
        | none => none
        | some (dataLen, r4) =>
          match readBytes dataLen r4 with
          | none => none
          | some (dataBytes, r5) =>
            some ({ file_path := String.mk (pathBytes.map Char.ofNat),
                    file_mode := mode, file_data := dataBytes }, r5)

/-- Modelled from the spec: records repeat until the input is exhausted.
The fuel is only a termination device; each record consumes at least one
byte, so fuel `length + 1` never runs out on a parseable input. -/
def readRecordsFuel : Nat → List Nat → Option (List FoilzFileRecord)
  | _, [] => some []
  | 0, _ :: _ => none
  | fuel + 1, b :: bs =>
    match readRecord (b :: bs) with
    | none => none
    | some (record, rest) =>
      match readRecordsFuel fuel rest with
      | none => none
      | some records => some (record :: records)

/-- Modelled from the spec: `FoilzPayload::read_be`, parsing the whole
decompressed stream as a record sequence. -/
def FoilzPayload.readBe (bs : List Nat) : Option FoilzPayload :=
  match readRecordsFuel (bs.length + 1) bs with
  | none => none
  | some records => some { files := records }

/-- `decompress_payload`: snap-decompress the embedded payload (the snap
decoder is an external crate, injected as a function), parse the result
as a `FoilzPayload`, then write every record to disk.  Both decompression
failure and parse failure map to `PayloadDecompressFailed`. -/
def decompressPayload (snapDecode : List Nat → Option (List Nat)) (payload : List Nat)
    (unixLike : Bool) (os : Nat → OsEnv) (destinationPath : FsPath) (fs : FsState) :
    FsState × Option WrapperError :=
  match snapDecode payload with
  | none => (fs, some WrapperError.PayloadDecompressFailed)
  | some data =>
    match FoilzPayload.readBe data with
    | none => (fs, some WrapperError.PayloadDecompressFailed)
    | some parsed => installRecords unixLike os destinationPath 0 fs parsed.files

/-- The fixed namespace suffix appended to every base directory. -/
def INSTALL_SUFFIX : String := ".burrito"

/-- `get_base_install_dir`: the environment override — the value of
`<RELEASE_NAME>_INSTALL_PATH`, `none` when the variable is unset — wins
whenever present; otherwise the platform data directory is used;
otherwise the resolution fails. -/
def getBaseInstallDir (envOverride : Option String) (dataDir : Option FsPath) :
    Except WrapperError FsPath :=
  match envOverride with
  | some val => Except.ok ((parsePath val).push (parsePath INSTALL_SUFFIX))
  | none =>
    match dataDir with
    | none => Except.error WrapperError.ExtractCannotComputeInstallDir
    | some d => Except.ok (d.push (parsePath INSTALL_SUFFIX))

/-- The versioned directory name
`<release_name>_erts-<erts_version>_<app_version>` built by
`push_final_install_dir`. -/
def installVersionSuffix (releaseName : String) (meta : PayloadMetadata) : String :=
  releaseName ++ "_erts-" ++ meta.erts_version ++ "_" ++ meta.app_version

/-- `push_final_install_dir`: push the versioned directory name onto the
base install directory. -/
def pushFinalInstallDir (releaseName : String) (baseInstallDir : FsPath)
    (meta : PayloadMetadata) : FsPath :=
  baseInstallDir.push (parsePath (installVersionSuffix releaseName meta))

/-- `determine_needs_install`: install exactly when the versioned
directory does not exist.  Existence is injected as a predicate. -/
def determineNeedsInstall (dirExists : FsPath → Bool) (fullInstallDir : FsPath) : Bool :=
  !(dirExists fullInstallDir)

/-- Everything `main` reads from its surroundings: the build mode, the
release name, the metadata parse result (serde is external; `none` means
the parse failed), the environment override, the platform data
directory, directory existence, the snap decoder, the embedded payload
bytes, the platform flavour, the per-record OS outcomes and the initial
filesystem. -/
structure MainEnv where
  isProd : Bool
  releaseName : String
  parsedMetadata : Option PayloadMetadata
  envOverride : Option String
  dataDir : Option FsPath
  dirExists : FsPath → Bool
  snapDecode : List Nat → Option (List Nat)
  payload : List Nat
  unixLike : Bool
  os : Nat → OsEnv
  fs0 : FsState

/-- Outcome of one run of `main` up to the launch hand-off: the error it
exited with (if any), the final filesystem, whether the install phase
ran, and the directory handed to the launcher. -/
structure MainResult where
  exitErr : Option WrapperError
  fs : FsState
  installRan : Bool
  launchedDir : Option FsPath

/-- The coordinator logic of `main`: parse metadata, compute the base
directory, push the versioned segment, check whether an install is
needed (forced on in debug builds by the `if_debug` block), run the
install conditionally, then hand off to the launcher. -/
def mainFlow (env : MainEnv) : MainResult :=
  match env.parsedMetadata with
  | none =>
    { exitErr := some WrapperError.MetadataCorrupted, fs := env.fs0,
      installRan := false, launchedDir := none }
  | some meta =>
    match getBaseInstallDir env.envOverride env.dataDir with
    | Except.error e =>
      { exitErr := some e, fs := env.fs0, installRan := false, launchedDir := none }
    | Except.ok base =>
      let installDir := pushFinalInstallDir env.releaseName base meta
      let needsInstall0 := determineNeedsInstall env.dirExists installDir
      let needsInstall := if env.isProd then needsInstall0 else true
      if needsInstall then
        match decompressPayload env.snapDecode env.payload env.unixLike env.os
            installDir env.fs0 with
        | (fs1, some e) =>
          { exitErr := some e, fs := fs1, installRan := true, launchedDir := none }
        | (fs1, none) =>
          { exitErr := none, fs := fs1, installRan := true, launchedDir := some installDir }
      else
        { exitErr := none, fs := env.fs0, installRan := false, launchedDir := some installDir }

/-- The install error shapes that `write_payload_file` can produce
(everything except the metadata, path-resolution and decode kinds). -/
def isInstallErr : Option WrapperError → Prop
  | none => True
  | some WrapperError.ExtractInvalidInstallDir => True
  | some (WrapperError.ExtractMkdirFailed _) => True
  | some (WrapperError.ExtractFileWriteFailed _) => True
  | some (WrapperError.ExtractChmodFailed _) => True
  | _ => False

/-- Stated from the spec's words for claim C1: normalization of a
component list, resolving `..` against preceding normal components; the
first argument is the stack of components seen so far, in reverse. -/
def normStack : List Component → List Component → List Component
  | acc, [] => acc.reverse
  | acc, Component.normal s :: rest => normStack (Component.normal s :: acc) rest
  | acc, Component.parentDir :: rest =>
    match acc with
    | Component.normal _ :: acc2 => normStack acc2 rest
    | _ => normStack (Component.parentDir :: acc) rest

/-- Stated from the spec's words for claim C1: the resolved location of
`p` lies inside the directory `dir` — same root, and after resolving
`..` the directory's components are an initial segment of the path's. -/
def resolvesInside (dir p : FsPath) : Bool :=
  let nd := normStack [] dir.components
  let np := normStack [] p.components
  (p.absolute = dir.absolute) && decide (np.take nd.length = nd)

/-! Branch characterizations of `writePayloadFile`, shared by the claim
theorems below. -/

/-- A path with at least one component has a parent: the same root with
the last component dropped. -/
theorem parent_of_ne_nil (p : FsPath) (h : p.components ≠ []) :
    FsPath.parent p = some { absolute := p.absolute, components := p.components.dropLast } := by
  unfold FsPath.parent
  rw [if_neg h]

/-- Pushing a relative path onto a path with components never empties the
component list. -/
theorem push_components_ne_nil (p q : FsPath) (hq : q.absolute = false)
    (hp : p.components ≠ []) : (p.push q).components ≠ [] := by
  unfold FsPath.push
  rw [hq]
  simpa using fun h _ => hp h

theorem wpf_parent_none (unixLike : Bool) (os : OsEnv) (record : FoilzFileRecord)
    (destinationPath : FsPath) (fs : FsState)
    (h : (destinationPath.push (parsePath record.file_path)).parent = none) :
    writePayloadFile unixLike os record destinationPath fs =
      (fs, some WrapperError.ExtractInvalidInstallDir) := by
  simp only [writePayloadFile, h]

theorem wpf_mkdir_fail (unixLike : Bool) (os : OsEnv) (record : FoilzFileRecord)
    (destinationPath : FsPath) (fs : FsState) (pp : FsPath)
    (h : (destinationPath.push (parsePath record.file_path)).parent = some pp)
    (hmk : os.mkdirOk pp = false) :
    writePayloadFile unixLike os record destinationPath fs =
      (fs, some (WrapperError.ExtractMkdirFailed "Could not create all install directories")) := by
  simp only [writePayloadFile, h, hmk]
  simp

theorem wpf_create_fail (unixLike : Bool) (os : OsEnv) (record : FoilzFileRecord)
    (destinationPath : FsPath) (fs : FsState) (pp : FsPath)
    (h : (destinationPath.push (parsePath record.file_path)).parent = some pp)
    (hmk : os.mkdirOk pp = true)
    (hcr : os.createOk (destinationPath.push (parsePath record.file_path)) = false) :
    writePayloadFile unixLike os record destinationPath fs =
      (fs, some (WrapperError.ExtractFileWriteFailed "Could not create file")) := by
  simp only [writePayloadFile, h, hmk, hcr]
  simp

theorem wpf_write_fail (unixLike : Bool) (os : OsEnv) (record : FoilzFileRecord)
    (destinationPath : FsPath) (fs : FsState) (pp : FsPath)
    (h : (destinationPath.push (parsePath record.file_path)).parent = some pp)
    (hmk : os.mkdirOk pp = true)
    (hcr : os.createOk (destinationPath.push (parsePath record.file_path)) = true)
    (hwr : os.writeOk (destinationPath.push (parsePath record.file_path)) = false) :
    writePayloadFile unixLike os record destinationPath fs =
      (fs.set (destinationPath.push (parsePath record.file_path))
        { content := [],
          mode := (fs (destinationPath.push (parsePath record.file_path))).bind FileEntry.mode },
        some (WrapperError.ExtractFileWriteFailed "Could not write data to file")) := by
  simp only [writePayloadFile, h, hmk, hcr, hwr]
  simp

theorem wpf_chmod_fail (os : OsEnv) (record : FoilzFileRecord)
    (destinationPath : FsPath) (fs : FsState) (pp : FsPath)
    (h : (destinationPath.push (parsePath record.file_path)).parent = some pp)
    (hmk : os.mkdirOk pp = true)
    (hcr : os.createOk (destinationPath.push (parsePath record.file_path)) = true)
    (hwr : os.writeOk (destinationPath.push (parsePath record.file_path)) = true)
    (hch : os.chmodOk (destinationPath.push (parsePath record.file_path)) = false) :
    writePayloadFile true os record destinationPath fs =
      ((fs.set (destinationPath.push (parsePath record.file_path))
          { content := [],
            mode := (fs (destinationPath.push (parsePath record.file_path))).bind FileEntry.mode }).set
        (destinationPath.push (parsePath record.file_path))
          { content := record.file_data,
            mode := (fs (destinationPath.push (parsePath record.file_path))).bind FileEntry.mode },
        some (WrapperError.ExtractChmodFailed os.chmodMsg)) := by
  simp only [writePayloadFile, h, hmk, hcr, hwr, hch]
  simp

theorem wpf_all_ok_unix (os : OsEnv) (record : FoilzFileRecord)
    (destinationPath : FsPath) (fs : FsState) (pp : FsPath)
    (h : (destinationPath.push (parsePath record.file_path)).parent = some pp)
    (hmk : os.mkdirOk pp = true)
    (hcr : os.createOk (destinationPath.push (parsePath record.file_path)) = true)
    (hwr : os.writeOk (destinationPath.push (parsePath record.file_path)) = true)
    (hch : os.chmodOk (destinationPath.push (parsePath record.file_path)) = true) :
    writePayloadFile true os record destinationPath fs =
      (((fs.set (destinationPath.push (parsePath record.file_path))
            { content := [],
              mode := (fs (destinationPath.push (parsePath record.file_path))).bind FileEntry.mode }).set
          (destinationPath.push (parsePath record.file_path))
            { content := record.file_data,
              mode := (fs (destinationPath.push (parsePath record.file_path))).bind FileEntry.mode }).set
        (destinationPath.push (parsePath record.file_path))
          { content := record.file_data, mode := some record.file_mode }, none) := by
  simp only [writePayloadFile, h, hmk, hcr, hwr, hch]
  simp

theorem wpf_nonunix_ok (os : OsEnv) (record : FoilzFileRecord)
    (destinationPath : FsPath) (fs : FsState) (pp : FsPath)
    (h : (destinationPath.push (parsePath record.file_path)).parent = some pp)
    (hmk : os.mkdirOk pp = true)
    (hcr : os.createOk (destinationPath.push (parsePath record.file_path)) = true)
    (hwr : os.writeOk (destinationPath.push (parsePath record.file_path)) = true) :
    writePayloadFile false os record destinationPath fs =
      ((fs.set (destinationPath.push (parsePath record.file_path))
          { content := [],
            mode := (fs (destinationPath.push (parsePath record.file_path))).bind FileEntry.mode }).set
        (destinationPath.push (parsePath record.file_path))
          { content := record.file_data,
            mode := (fs (destinationPath.push (parsePath record.file_path))).bind FileEntry.mode },
        none) := by
  simp only [writePayloadFile, h, hmk, hcr, hwr]
  simp

/-- `write_payload_file` touches no path other than its own full
destination path. -/
theorem wpf_other_paths (unixLike : Bool) (os : OsEnv) (record : FoilzFileRecord)
    (destinationPath : FsPath) (fs : FsState) (q : FsPath)
    (hq : q ≠ destinationPath.push (parsePath record.file_path)) :
    (writePayloadFile unixLike os record destinationPath fs).1 q = fs q := by
  simp only [writePayloadFile]
  split
  · rfl
  · split_ifs <;> simp [FsState.set, hq]

/-- Every result of `write_payload_file` has an install-error shape. -/
theorem wpf_err_shape (unixLike : Bool) (os : OsEnv) (record : FoilzFileRecord)
    (destinationPath : FsPath) (fs : FsState) :
    isInstallErr (writePayloadFile unixLike os record destinationPath fs).2 := by
  simp only [writePayloadFile]
  split
  · trivial
  · split_ifs <;> trivial

/-- When the joined path has a parent, `write_payload_file` never
reports `ExtractInvalidInstallDir`. -/
theorem wpf_ne_invalid (unixLike : Bool) (os : OsEnv) (record : FoilzFileRecord)
    (destinationPath : FsPath) (fs : FsState) (pp : FsPath)
    (h : (destinationPath.push (parsePath record.file_path)).parent = some pp) :
    (writePayloadFile unixLike os record destinationPath fs).2 ≠
      some WrapperError.ExtractInvalidInstallDir := by
  simp only [writePayloadFile, h]
  split_ifs <;> simp

/-- Claim C3: `get_base_install_dir` precedence — a set override wins
regardless of the platform data directory; otherwise the data directory
is used; when both are missing the resolution fails with the
cannot-compute error, and `main` then exits without running any decoder
or installer step (no writes, install phase never entered). -/
theorem c3_install_dir_precedence :
    (∀ (v : String) (dd : Option FsPath), getBaseInstallDir (some v) dd =
        Except.ok ((parsePath v).push (parsePath INSTALL_SUFFIX))) ∧
    (∀ d : FsPath, getBaseInstallDir none (some d) =
        Except.ok (d.push (parsePath INSTALL_SUFFIX))) ∧
    getBaseInstallDir none none = Except.error WrapperError.ExtractCannotComputeInstallDir ∧
    (∀ (env : MainEnv) (m : PayloadMetadata), env.parsedMetadata = some m →
      env.envOverride = none → env.dataDir = none →
      mainFlow env =
        { exitErr := some WrapperError.ExtractCannotComputeInstallDir,
          fs := env.fs0, installRan := false, launchedDir := none }) := by
  refine ⟨fun v dd => rfl, fun d => rfl, rfl, ?_⟩
  intro env m hm ho hd
  simp [mainFlow, hm, ho, hd, getBaseInstallDir]

/-- Concrete environment for the `c3_install_dir_precedence` witness:
no override, no platform data directory. -/
def envC3 : MainEnv :=
  { isProd := true, releaseName := "demo",
    parsedMetadata := some { erts_version := "13.0", app_version := "1.2.3" },
    envOverride := none, dataDir := none, dirExists := fun _ => false,
    snapDecode := fun _ => none, payload := [], unixLike := true,
    os := fun _ => OsEnv.allOk, fs0 := FsState.empty }

/-- Witness for `c3_install_dir_precedence` at `envC3`. -/
theorem c3_install_dir_precedence_witness :
    mainFlow envC3 =
      { exitErr := some WrapperError.ExtractCannotComputeInstallDir,
        fs := envC3.fs0, installRan := false, launchedDir := none } :=
  c3_install_dir_precedence.2.2.2 envC3
    { erts_version := "13.0", app_version := "1.2.3" } rfl rfl rfl

/-- Claim C4 is false on the code: with `<RELEASE_NAME>_INSTALL_PATH`
set to the empty string, `env::var` still yields a value, so the
override applies — the result is the relative path `.burrito`, not the
platform data directory based `/data/.burrito`. -/
theorem c4_counterexample :
    getBaseInstallDir (some "") (some (parsePath "/data")) =
      Except.ok ((parsePath "").push (parsePath INSTALL_SUFFIX)) ∧
    (parsePath "").push (parsePath INSTALL_SUFFIX) ≠
      (parsePath "/data").push (parsePath INSTALL_SUFFIX) :=
  ⟨rfl, by decide⟩

/-- Claim C4 amended: the override applies exactly when the variable is
set, to any value including the empty string; the override result never
depends on the platform data directory, and only an unset variable falls
back to the platform data directory. -/
theorem c4_override_iff_set (v : String) (dd dd2 : Option FsPath) (d : FsPath) :
    getBaseInstallDir (some v) dd =
      Except.ok ((parsePath v).push (parsePath INSTALL_SUFFIX)) ∧
    getBaseInstallDir (some v) dd = getBaseInstallDir (some v) dd2 ∧
    getBaseInstallDir none (some d) =
      Except.ok (d.push (parsePath INSTALL_SUFFIX)) :=
  ⟨rfl, rfl, rfl⟩

/-- Claim C9: `ExtractInvalidInstallDir` is reported only when the
joined destination path has no parent, and for a non-empty relative
record path joined onto a destination with at least one component that
branch is unreachable: the parent exists and directory creation is
attempted on it (a failing `create_dir_all` there is what surfaces as
`ExtractMkdirFailed`). -/
theorem c9_invalid_dir_only_no_parent (unixLike : Bool) (os : OsEnv)
    (record : FoilzFileRecord) (destinationPath : FsPath) (fs : FsState) :
    ((writePayloadFile unixLike os record destinationPath fs).2 =
        some WrapperError.ExtractInvalidInstallDir →
      (destinationPath.push (parsePath record.file_path)).parent = none) ∧
    (record.file_path ≠ "" →
      (parsePath record.file_path).absolute = false →
      destinationPath.components ≠ [] →
      ∃ pp, (destinationPath.push (parsePath record.file_path)).parent = some pp ∧
        (writePayloadFile unixLike os record destinationPath fs).2 ≠
          some WrapperError.ExtractInvalidInstallDir ∧
        (os.mkdirOk pp = false →
          (writePayloadFile unixLike os record destinationPath fs).2 =
            some (WrapperError.ExtractMkdirFailed
              "Could not create all install directories"))) := by
  constructor
  · intro h
    cases hp : (destinationPath.push (parsePath record.file_path)).parent with
    | none => rfl
    | some pp => exact absurd h (wpf_ne_invalid unixLike os record destinationPath fs pp hp)
  · intro _ habs hdest
    have hcomps := push_components_ne_nil destinationPath (parsePath record.file_path) habs hdest
    have hpar := parent_of_ne_nil _ hcomps
    refine ⟨_, hpar, wpf_ne_invalid unixLike os record destinationPath fs _ hpar, ?_⟩
    intro hmk
    rw [wpf_mkdir_fail unixLike os record destinationPath fs _ hpar hmk]

/-- Witness for `c9_invalid_dir_only_no_parent` at a concrete record and
destination. -/
theorem c9_invalid_dir_only_no_parent_witness :
    ∃ pp, ((parsePath "/base/app").push (parsePath "bin/x")).parent = some pp ∧
      (writePayloadFile true OsEnv.allOk
          { file_path := "bin/x", file_mode := 493, file_data := [7] }
          (parsePath "/base/app") FsState.empty).2 ≠
        some WrapperError.ExtractInvalidInstallDir ∧
      (OsEnv.allOk.mkdirOk pp = false →
        (writePayloadFile true OsEnv.allOk
            { file_path := "bin/x", file_mode := 493, file_data := [7] }
            (parsePath "/base/app") FsState.empty).2 =
          some (WrapperError.ExtractMkdirFailed
            "Could not create all install directories")) :=
  (c9_invalid_dir_only_no_parent true OsEnv.allOk
    { file_path := "bin/x", file_mode := 493, file_data := [7] }
    (parsePath "/base/app") FsState.empty).2 (by decide) (by decide) (by decide)

/-- Claim C1 is false on the code: `write_payload_file` contains no
path-containment check.  A record whose `file_path` is the absolute path
`/outside/evil` resolves outside the versioned directory `/base/app`,
yet the installer reports no failure and writes the file at the escaped
location. -/
theorem c1_counterexample :
    (writePayloadFile true OsEnv.allOk
        { file_path := "/outside/evil", file_mode := 420, file_data := [1, 2, 3] }
        (parsePath "/base/app") FsState.empty).2 = none ∧
    (writePayloadFile true OsEnv.allOk
        { file_path := "/outside/evil", file_mode := 420, file_data := [1, 2, 3] }
        (parsePath "/base/app") FsState.empty).1 (parsePath "/outside/evil") =
      some { content := [1, 2, 3], mode := some 420 } ∧
    resolvesInside (parsePath "/base/app")
      ((parsePath "/base/app").push (parsePath "/outside/evil")) = false := by
  exact ⟨by decide, by decide, by decide⟩

/-- Claim C1 amended: the installer performs no containment check at
all.  For every record whose resolved path escapes the versioned
directory, as long as the OS calls succeed and the joined path has a
component, `write_payload_file` succeeds and writes the record at the
escaped location instead of rejecting it. -/
theorem c1_no_escape_check (unixLike : Bool) (os : OsEnv) (record : FoilzFileRecord)
    (destinationPath : FsPath) (fs : FsState)
    (_hesc : resolvesInside destinationPath
      (destinationPath.push (parsePath record.file_path)) = false)
    (hcomps : (destinationPath.push (parsePath record.file_path)).components ≠ [])
    (hmk : ∀ p, os.mkdirOk p = true) (hcr : ∀ p, os.createOk p = true)
    (hwr : ∀ p, os.writeOk p = true) (hch : ∀ p, os.chmodOk p = true) :
    (writePayloadFile unixLike os record destinationPath fs).2 = none ∧
    (writePayloadFile unixLike os record destinationPath fs).1
      (destinationPath.push (parsePath record.file_path)) ≠ none := by
  have hpar := parent_of_ne_nil _ hcomps
  cases unixLike with
  | true =>
    rw [wpf_all_ok_unix os record destinationPath fs _ hpar (hmk _) (hcr _) (hwr _) (hch _)]
    simp [FsState.set]
  | false =>
    rw [wpf_nonunix_ok os record destinationPath fs _ hpar (hmk _) (hcr _) (hwr _)]
    simp [FsState.set]

/-- Witness for `c1_no_escape_check` at the concrete escaping record of
the counterexample. -/
theorem c1_no_escape_check_witness :
    (writePayloadFile true OsEnv.allOk
        { file_path := "/outside/evil", file_mode := 420, file_data := [1, 2, 3] }
        (parsePath "/base/app") FsState.empty).2 = none ∧
    (writePayloadFile true OsEnv.allOk
        { file_path := "/outside/evil", file_mode := 420, file_data := [1, 2, 3] }
        (parsePath "/base/app") FsState.empty).1
      ((parsePath "/base/app").push (parsePath "/outside/evil")) ≠ none :=
  c1_no_escape_check true OsEnv.allOk
    { file_path := "/outside/evil", file_mode := 420, file_data := [1, 2, 3] }
    (parsePath "/base/app") FsState.empty (by decide) (by decide)
    (fun _ => rfl) (fun _ => rfl) (fun _ => rfl) (fun _ => rfl)


/-- On non-Unix platforms the permission step does not exist, so
`ExtractChmodFailed` is never produced, whatever the OS outcomes. -/
theorem wpf_nonunix_no_chmod_err (os : OsEnv) (record : FoilzFileRecord)
    (destinationPath : FsPath) (fs : FsState) (s : String) :
    (writePayloadFile false os record destinationPath fs).2 ≠
      some (WrapperError.ExtractChmodFailed s) := by
  simp only [writePayloadFile]
  split
  · simp
  · split_ifs <;> simp_all

/-- Claim C8: on Unix-like platforms the installer applies the record's
mode bits exactly as given, reporting `ExtractChmodFailed` when the
permission change fails; on other platforms the permission step is a
no-op — it never fails, the write behaves identically whatever the
chmod outcomes, and the file keeps its previous (or default) mode. -/
theorem c8_mode_bits (os : OsEnv) (record : FoilzFileRecord)
    (destinationPath : FsPath) (fs : FsState) (pp : FsPath)
    (h : (destinationPath.push (parsePath record.file_path)).parent = some pp)
    (hmk : os.mkdirOk pp = true)
    (hcr : os.createOk (destinationPath.push (parsePath record.file_path)) = true)
    (hwr : os.writeOk (destinationPath.push (parsePath record.file_path)) = true) :
    (os.chmodOk (destinationPath.push (parsePath record.file_path)) = true →
      (writePayloadFile true os record destinationPath fs).2 = none ∧
      (writePayloadFile true os record destinationPath fs).1
          (destinationPath.push (parsePath record.file_path)) =
        some { content := record.file_data, mode := some record.file_mode }) ∧
    (os.chmodOk (destinationPath.push (parsePath record.file_path)) = false →
      (writePayloadFile true os record destinationPath fs).2 =
        some (WrapperError.ExtractChmodFailed os.chmodMsg)) ∧
    ((writePayloadFile false os record destinationPath fs).2 = none ∧
     (writePayloadFile false os record destinationPath fs).1
         (destinationPath.push (parsePath record.file_path)) =
       some { content := record.file_data,
              mode := (fs (destinationPath.push (parsePath record.file_path))).bind FileEntry.mode } ∧
     (∀ os2 : OsEnv, os2.mkdirOk = os.mkdirOk → os2.createOk = os.createOk →
        os2.writeOk = os.writeOk → os2.chmodMsg = os.chmodMsg →
        writePayloadFile false os2 record destinationPath fs =
          writePayloadFile false os record destinationPath fs) ∧
     (∀ (os2 : OsEnv) (s : String),
        (writePayloadFile false os2 record destinationPath fs).2 ≠
          some (WrapperError.ExtractChmodFailed s))) := by
  refine ⟨?_, ?_, ?_, ?_, ?_, ?_⟩
  · intro hch
    rw [wpf_all_ok_unix os record destinationPath fs pp h hmk hcr hwr hch]
    simp [FsState.set]
  · intro hch
    rw [wpf_chmod_fail os record destinationPath fs pp h hmk hcr hwr hch]
  · rw [wpf_nonunix_ok os record destinationPath fs pp h hmk hcr hwr]
  · rw [wpf_nonunix_ok os record destinationPath fs pp h hmk hcr hwr]
    simp [FsState.set]
  · intro os2 h2mk h2cr h2wr _
    rw [wpf_nonunix_ok os record destinationPath fs pp h hmk hcr hwr,
      wpf_nonunix_ok os2 record destinationPath fs pp h (by rw [h2mk]; exact hmk)
        (by rw [h2cr]; exact hcr) (by rw [h2wr]; exact hwr)]
  · intro os2 s
    exact wpf_nonunix_no_chmod_err os2 record destinationPath fs s



/-- Witness for `c8_mode_bits`: the concrete record of the spec's
scenario gets exactly its mode bits applied. -/
theorem c8_mode_bits_witness :
    (writePayloadFile true OsEnv.allOk
        { file_path := "bin/x", file_mode := 493, file_data := [7] }
        (parsePath "/base/app") FsState.empty).2 = none ∧
    (writePayloadFile true OsEnv.allOk
        { file_path := "bin/x", file_mode := 493, file_data := [7] }
        (parsePath "/base/app") FsState.empty).1
      ((parsePath "/base/app").push (parsePath "bin/x")) =
      some { content := [7], mode := some 493 } :=
  (c8_mode_bits OsEnv.allOk
    { file_path := "bin/x", file_mode := 493, file_data := [7] }
    (parsePath "/base/app") FsState.empty
    { absolute := true,
      components := [Component.normal "base", Component.normal "app", Component.normal "bin"] }
    (by decide) rfl rfl rfl).1 rfl

/-- OS outcomes in which only the permission change fails. -/
def osChmodFails : OsEnv :=
  { mkdirOk := fun _ => true, createOk := fun _ => true,
    writeOk := fun _ => true, chmodOk := fun _ => false,
    chmodMsg := "Operation not permitted" }

/-- Claim C10: when applying permissions fails on a Unix-like platform,
`ExtractChmodFailed` is returned only after the destination file has
been created and its content fully written: the file stays on disk with
the record's content and default (unset) permissions — the error does
not undo the write. -/
theorem c10_chmod_error_after_write (os : OsEnv) (record : FoilzFileRecord)
    (destinationPath : FsPath) (fs : FsState) (pp : FsPath)
    (h : (destinationPath.push (parsePath record.file_path)).parent = some pp)
    (hmk : os.mkdirOk pp = true)
    (hcr : os.createOk (destinationPath.push (parsePath record.file_path)) = true)
    (hwr : os.writeOk (destinationPath.push (parsePath record.file_path)) = true)
    (hch : os.chmodOk (destinationPath.push (parsePath record.file_path)) = false)
    (hfresh : fs (destinationPath.push (parsePath record.file_path)) = none) :
    (writePayloadFile true os record destinationPath fs).2 =
      some (WrapperError.ExtractChmodFailed os.chmodMsg) ∧
    (writePayloadFile true os record destinationPath fs).1
        (destinationPath.push (parsePath record.file_path)) =
      some { content := record.file_data, mode := none } := by
  rw [wpf_chmod_fail os record destinationPath fs pp h hmk hcr hwr hch]
  simp [FsState.set, hfresh]

/-- Witness for `c10_chmod_error_after_write` at a concrete record with
a failing permission change. -/
theorem c10_chmod_error_after_write_witness :
    (writePayloadFile true osChmodFails
        { file_path := "bin/x", file_mode := 493, file_data := [7] }
        (parsePath "/base/app") FsState.empty).2 =
      some (WrapperError.ExtractChmodFailed osChmodFails.chmodMsg) ∧
    (writePayloadFile true osChmodFails
        { file_path := "bin/x", file_mode := 493, file_data := [7] }
        (parsePath "/base/app") FsState.empty).1
      ((parsePath "/base/app").push (parsePath "bin/x")) =
      some { content := [7], mode := none } :=
  c10_chmod_error_after_write osChmodFails
    { file_path := "bin/x", file_mode := 493, file_data := [7] }
    (parsePath "/base/app") FsState.empty
    { absolute := true,
      components := [Component.normal "base", Component.normal "app", Component.normal "bin"] }
    (by decide) rfl rfl rfl rfl rfl

/-- The install loop only ever produces install-shaped errors, never a
decode error. -/
theorem installRecords_err_shape (unixLike : Bool) (os : Nat → OsEnv)
    (destinationPath : FsPath) :
    ∀ (records : List FoilzFileRecord) (k : Nat) (fs : FsState),
      isInstallErr (installRecords unixLike os destinationPath k fs records).2 := by
  intro records
  induction records with
  | nil => intro k fs; trivial
  | cons r rest ih =>
    intro k fs
    cases hw : writePayloadFile unixLike (os k) r destinationPath fs with
    | mk fs1 oe =>
      cases oe with
      | none =>
        rw [installRecords, hw]
        exact ih (k + 1) fs1
      | some e =>
        rw [installRecords, hw]
        have hshape := wpf_err_shape unixLike (os k) r destinationPath fs
        rw [hw] at hshape
        exact hshape

/-- Claim C6: the decoder fails with the single kind
`PayloadDecompressFailed`, both when block decompression fails and when
the decompressed bytes are structurally malformed; whenever that kind is
reported the filesystem is untouched (no file is written for a record
that is never successfully parsed), and the decode phase produces no
other error kind. -/
theorem c6_decode_errors (snapDecode : List Nat → Option (List Nat)) (payload : List Nat)
    (unixLike : Bool) (os : Nat → OsEnv) (destinationPath : FsPath) (fs : FsState) :
    (snapDecode payload = none →
      decompressPayload snapDecode payload unixLike os destinationPath fs =
        (fs, some WrapperError.PayloadDecompressFailed)) ∧
    (∀ data, snapDecode payload = some data → FoilzPayload.readBe data = none →
      decompressPayload snapDecode payload unixLike os destinationPath fs =
        (fs, some WrapperError.PayloadDecompressFailed)) ∧
    ((decompressPayload snapDecode payload unixLike os destinationPath fs).2 =
        some WrapperError.PayloadDecompressFailed →
      decompressPayload snapDecode payload unixLike os destinationPath fs =
        (fs, some WrapperError.PayloadDecompressFailed)) := by
  refine ⟨?_, ?_, ?_⟩
  · intro hs
    simp [decompressPayload, hs]
  · intro data hs hr
    simp [decompressPayload, hs, hr]
  · intro herr
    cases hs : snapDecode payload with
    | none => simp [decompressPayload, hs]
    | some data =>
      cases hr : FoilzPayload.readBe data with
      | none => simp [decompressPayload, hs, hr]
      | some parsed =>
        exfalso
        have hshape := installRecords_err_shape unixLike os destinationPath
          parsed.files 0 fs
        simp only [decompressPayload, hs, hr] at herr
        rw [herr] at hshape
        exact hshape

/-- Witness for `c6_decode_errors`: a failing snap decode, and a
decompressed stream whose first record announces five path bytes but is
truncated, both yield `PayloadDecompressFailed` with nothing written. -/
theorem c6_decode_errors_witness :
    decompressPayload (fun _ => none) [0] true (fun _ => OsEnv.allOk)
        (parsePath "/d") FsState.empty =
      (FsState.empty, some WrapperError.PayloadDecompressFailed) ∧
    decompressPayload (fun _ => some [0, 0, 0, 5]) [0] true (fun _ => OsEnv.allOk)
        (parsePath "/d") FsState.empty =
      (FsState.empty, some WrapperError.PayloadDecompressFailed) :=
  ⟨(c6_decode_errors (fun _ => none) [0] true (fun _ => OsEnv.allOk)
      (parsePath "/d") FsState.empty).1 rfl,
   (c6_decode_errors (fun _ => some [0, 0, 0, 5]) [0] true (fun _ => OsEnv.allOk)
      (parsePath "/d") FsState.empty).2.1 [0, 0, 0, 5] rfl (by decide)⟩



/-- Claim C5 amended, production builds: `determine_needs_install` is
true exactly when the versioned directory is absent; when it is present
the coordinator performs zero filesystem writes and goes straight to the
launch hand-off; when it is absent the install phase runs. -/
theorem c5_install_iff_absent_prod (env : MainEnv) (m : PayloadMetadata) (base : FsPath)
    (hprod : env.isProd = true)
    (hm : env.parsedMetadata = some m)
    (hb : getBaseInstallDir env.envOverride env.dataDir = Except.ok base) :
    (∀ d : FsPath, determineNeedsInstall env.dirExists d = true ↔ env.dirExists d = false) ∧
    (env.dirExists (pushFinalInstallDir env.releaseName base m) = true →
      mainFlow env =
        { exitErr := none, fs := env.fs0, installRan := false,
          launchedDir := some (pushFinalInstallDir env.releaseName base m) }) ∧
    (env.dirExists (pushFinalInstallDir env.releaseName base m) = false →
      (mainFlow env).installRan = true) := by
  refine ⟨?_, ?_, ?_⟩
  · intro d
    simp [determineNeedsInstall]
  · intro hex
    simp [mainFlow, hm, hb, determineNeedsInstall, hprod, hex]
  · intro hex
    simp only [mainFlow, hm, hb, determineNeedsInstall, hprod, hex]
    simp only [Bool.not_false, if_true]
    split <;> rfl

/-- Concrete production environment for the `c5_install_iff_absent_prod`
witness: override base `/custom`, versioned directory already present. -/
def envC5 : MainEnv :=
  { isProd := true, releaseName := "demo",
    parsedMetadata := some { erts_version := "13.0", app_version := "1.2.3" },
    envOverride := some "/custom", dataDir := none, dirExists := fun _ => true,
    snapDecode := fun _ => none, payload := [], unixLike := true,
    os := fun _ => OsEnv.allOk, fs0 := FsState.empty }

/-- Witness for `c5_install_iff_absent_prod`: with the versioned
directory present, the run changes nothing and hands off to the
launcher. -/
theorem c5_install_iff_absent_prod_witness :
    mainFlow envC5 =
      { exitErr := none, fs := envC5.fs0, installRan := false,
        launchedDir := some (pushFinalInstallDir envC5.releaseName
          ((parsePath "/custom").push (parsePath INSTALL_SUFFIX))
          { erts_version := "13.0", app_version := "1.2.3" }) } :=
  (c5_install_iff_absent_prod envC5 { erts_version := "13.0", app_version := "1.2.3" }
    ((parsePath "/custom").push (parsePath INSTALL_SUFFIX)) rfl rfl rfl).2.1 rfl

/-- Debug-build environment for the C5 counterexample: the versioned
directory exists, yet the embedded payload (one record `bin/x`) is
re-extracted because debug builds force `needs_install`. -/
def envC5debug : MainEnv :=
  { isProd := false, releaseName := "demo",
    parsedMetadata := some { erts_version := "13.0", app_version := "1.2.3" },
    envOverride := some "/custom", dataDir := none, dirExists := fun _ => true,
    snapDecode := fun _ => some [0, 0, 0, 5, 98, 105, 110, 47, 120, 0, 0, 1, 237,
      0, 0, 0, 0, 0, 0, 0, 2, 104, 105],
    payload := [], unixLike := true,
    os := fun _ => OsEnv.allOk, fs0 := FsState.empty }

/-- Claim C5 is false on the code as a whole: in a debug build
(`IS_PROD` unset) the `if_debug` block forces `needs_install := true`,
so a run against an existing versioned directory still re-extracts the
payload — here it writes `bin/x` although `dirExists` is constantly
true. -/
theorem c5_counterexample :
    envC5debug.dirExists (pushFinalInstallDir envC5debug.releaseName
      ((parsePath "/custom").push (parsePath INSTALL_SUFFIX))
      { erts_version := "13.0", app_version := "1.2.3" }) = true ∧
    (mainFlow envC5debug).installRan = true ∧
    (mainFlow envC5debug).fs (parsePath "/custom/.burrito/demo_erts-13.0_1.2.3/bin/x") =
      some { content := [104, 105], mode := some 493 } ∧
    envC5debug.fs0 (parsePath "/custom/.burrito/demo_erts-13.0_1.2.3/bin/x") = none := by
  refine ⟨rfl, by decide, by decide, rfl⟩



/-- Unfolding step: a record whose write succeeds hands the loop the new
state and the next index. -/
theorem installRecords_cons_ok (unixLike : Bool) (os : Nat → OsEnv)
    (destinationPath : FsPath) (k : Nat) (fs fs1 : FsState) (r : FoilzFileRecord)
    (rest : List FoilzFileRecord)
    (h : writePayloadFile unixLike (os k) r destinationPath fs = (fs1, none)) :
    installRecords unixLike os destinationPath k fs (r :: rest) =
      installRecords unixLike os destinationPath (k + 1) fs1 rest := by
  rw [installRecords, h]

/-- Unfolding step: a record whose write fails stops the loop at once
with that error and the state the failing write left behind. -/
theorem installRecords_cons_err (unixLike : Bool) (os : Nat → OsEnv)
    (destinationPath : FsPath) (k : Nat) (fs fs1 : FsState) (r : FoilzFileRecord)
    (rest : List FoilzFileRecord) (e : WrapperError)
    (h : writePayloadFile unixLike (os k) r destinationPath fs = (fs1, some e)) :
    installRecords unixLike os destinationPath k fs (r :: rest) = (fs1, some e) := by
  rw [installRecords, h]

/-- A successfully installed prefix composes: the loop over `pre ++ rest`
runs `pre` first, then `rest` from the reached state and record index. -/
theorem installRecords_append_ok (unixLike : Bool) (os : Nat → OsEnv)
    (destinationPath : FsPath) :
    ∀ (pre : List FoilzFileRecord) (k : Nat) (fs : FsState),
      (installRecords unixLike os destinationPath k fs pre).2 = none →
      ∀ rest, installRecords unixLike os destinationPath k fs (pre ++ rest) =
        installRecords unixLike os destinationPath (k + pre.length)
          (installRecords unixLike os destinationPath k fs pre).1 rest := by
  intro pre
  induction pre with
  | nil => intro k fs _ rest; simp [installRecords]
  | cons r pre2 ih =>
    intro k fs hok rest
    cases hw : writePayloadFile unixLike (os k) r destinationPath fs with
    | mk fs1 oe =>
      cases oe with
      | some e =>
        rw [installRecords_cons_err unixLike os destinationPath k fs fs1 r pre2 e hw] at hok
        exact absurd hok (by simp)
      | none =>
        rw [installRecords_cons_ok unixLike os destinationPath k fs fs1 r pre2 hw] at hok
        rw [List.cons_append,
          installRecords_cons_ok unixLike os destinationPath k fs fs1 r (pre2 ++ rest) hw,
          installRecords_cons_ok unixLike os destinationPath k fs fs1 r pre2 hw,
          ih (k + 1) fs1 hok rest]
        have harith : k + 1 + pre2.length = k + (r :: pre2).length := by
          simp only [List.length_cons]
          omega
        rw [harith]

/-- Claim C7 amended: the first failing record aborts the installation
immediately — the loop returns that record's error and the records after
it are never processed — and the filesystem keeps everything written so
far except possibly at the failing record's own destination path, where
its partial effects (the create/truncate before the failure) may remain. -/
theorem c7_abort_no_rollback (unixLike : Bool) (os : Nat → OsEnv)
    (destinationPath : FsPath) (fs : FsState) (k : Nat)
    (pre post : List FoilzFileRecord) (r : FoilzFileRecord) (e : WrapperError)
    (hpre : (installRecords unixLike os destinationPath k fs pre).2 = none)
    (hfail : (writePayloadFile unixLike (os (k + pre.length)) r destinationPath
        (installRecords unixLike os destinationPath k fs pre).1).2 = some e) :
    installRecords unixLike os destinationPath k fs (pre ++ r :: post) =
      ((writePayloadFile unixLike (os (k + pre.length)) r destinationPath
          (installRecords unixLike os destinationPath k fs pre).1).1, some e) ∧
    (∀ q, q ≠ destinationPath.push (parsePath r.file_path) →
      (writePayloadFile unixLike (os (k + pre.length)) r destinationPath
          (installRecords unixLike os destinationPath k fs pre).1).1 q =
        (installRecords unixLike os destinationPath k fs pre).1 q) := by
  constructor
  · rw [installRecords_append_ok unixLike os destinationPath pre k fs hpre (r :: post)]
    cases hw : writePayloadFile unixLike (os (k + pre.length)) r destinationPath
        (installRecords unixLike os destinationPath k fs pre).1 with
    | mk fs1 oe =>
      rw [hw] at hfail
      cases oe with
      | none => exact absurd hfail (by simp)
      | some e2 =>
        have he : e2 = e := by simpa using hfail
        subst he
        rw [installRecords_cons_err unixLike os destinationPath (k + pre.length)
          (installRecords unixLike os destinationPath k fs pre).1 fs1 r post e2 hw]
  · intro q hq
    exact wpf_other_paths unixLike (os (k + pre.length)) r destinationPath
      (installRecords unixLike os destinationPath k fs pre).1 q hq

/-- Per-record OS outcomes in which the second record's `write_all`
fails while everything else succeeds. -/
def osSecondWriteFails : Nat → OsEnv :=
  fun k =>
    if k = 0 then OsEnv.allOk
    else
      { mkdirOk := fun _ => true, createOk := fun _ => true,
        writeOk := fun _ => false, chmodOk := fun _ => true, chmodMsg := "" }

/-- Claim C7 is false as stated: with two records for the same path
`a`, a failing write of the second record truncates the file that the
first record had successfully written — the earlier file does not remain
unchanged on disk. -/
theorem c7_counterexample :
    (installRecords true osSecondWriteFails (parsePath "/d") 0 FsState.empty
        [{ file_path := "a", file_mode := 493, file_data := [7] },
         { file_path := "a", file_mode := 493, file_data := [7] }]).2 =
      some (WrapperError.ExtractFileWriteFailed "Could not write data to file") ∧
    (installRecords true osSecondWriteFails (parsePath "/d") 0 FsState.empty
        [{ file_path := "a", file_mode := 493, file_data := [7] }]).1 (parsePath "/d/a") =
      some { content := [7], mode := some 493 } ∧
    (installRecords true osSecondWriteFails (parsePath "/d") 0 FsState.empty
        [{ file_path := "a", file_mode := 493, file_data := [7] },
         { file_path := "a", file_mode := 493, file_data := [7] }]).1 (parsePath "/d/a") =
      some { content := [], mode := some 493 } := by
  refine ⟨by decide, by decide, by decide⟩

/-- Witness for `c7_abort_no_rollback`: record `a` installs, record `b`
fails its write; the loop aborts with the write error and the file `a`
is untouched by the failing record. -/
theorem c7_abort_no_rollback_witness :
    installRecords true osSecondWriteFails (parsePath "/d") 0 FsState.empty
        ([{ file_path := "a", file_mode := 493, file_data := [7] }] ++
          { file_path := "b", file_mode := 420, file_data := [9] } :: []) =
      ((writePayloadFile true (osSecondWriteFails 1)
          { file_path := "b", file_mode := 420, file_data := [9] } (parsePath "/d")
          (installRecords true osSecondWriteFails (parsePath "/d") 0 FsState.empty
            [{ file_path := "a", file_mode := 493, file_data := [7] }]).1).1,
        some (WrapperError.ExtractFileWriteFailed "Could not write data to file")) ∧
    (writePayloadFile true (osSecondWriteFails 1)
        { file_path := "b", file_mode := 420, file_data := [9] } (parsePath "/d")
        (installRecords true osSecondWriteFails (parsePath "/d") 0 FsState.empty
          [{ file_path := "a", file_mode := 493, file_data := [7] }]).1).1
      (parsePath "/d/a") =
      (installRecords true osSecondWriteFails (parsePath "/d") 0 FsState.empty
        [{ file_path := "a", file_mode := 493, file_data := [7] }]).1 (parsePath "/d/a") :=
  ⟨(c7_abort_no_rollback true osSecondWriteFails (parsePath "/d") FsState.empty 0
      [{ file_path := "a", file_mode := 493, file_data := [7] }] []
      { file_path := "b", file_mode := 420, file_data := [9] }
      (WrapperError.ExtractFileWriteFailed "Could not write data to file")
      (by decide) (by decide)).1,
   (c7_abort_no_rollback true osSecondWriteFails (parsePath "/d") FsState.empty 0
      [{ file_path := "a", file_mode := 493, file_data := [7] }] []
      { file_path := "b", file_mode := 420, file_data := [9] }
      (WrapperError.ExtractFileWriteFailed "Could not write data to file")
      (by decide) (by decide)).2 (parsePath "/d/a") (by decide)⟩

/-- Splitting a list that contains no separator yields that list as the
single segment. -/
theorem splitSlash_no_slash : ∀ cs : List Char, '/' ∉ cs → splitSlash cs = [cs] := by
  intro cs
  induction cs with
  | nil => intro _; rfl
  | cons c rest ih =>
    intro h
    have hc : c ≠ '/' := fun hh => h (by rw [hh]; exact List.mem_cons_self '/' rest)
    have hrest : '/' ∉ rest := fun hm => h (List.mem_cons_of_mem c hm)
    rw [splitSlash, if_neg hc, ih hrest]

/-- Two strings are equal when their character lists are. -/
theorem string_data_inj {s t : String} (h : s.data = t.data) : s = t := by
  cases s
  cases t
  exact congrArg String.mk (by simpa using h)

/-- A separator-free, non-degenerate string parses to a single normal
component of a relative path. -/
theorem parsePath_single (s : String) (hs : '/' ∉ s.data)
    (h0 : s.data ≠ []) (h1 : s.data ≠ ['.']) (h2 : s.data ≠ ['.', '.']) :
    parsePath s = { absolute := false, components := [Component.normal s] } := by
  have habs : (decide (s.data.head? = some '/')) = false := by
    cases hd : s.data with
    | nil => simp
    | cons c rest =>
      have hc : c ≠ '/' := fun hh => hs (by rw [hd, hh]; exact List.mem_cons_self '/' rest)
      simp [hc]
  have hmk : String.mk s.data = s := by cases s; rfl
  unfold parsePath
  rw [splitSlash_no_slash s.data hs]
  simp [segComponent, h0, h1, h2, habs, hmk]

/-- Uniqueness of the first occurrence: two splittings of one list at an
element absent from both front parts coincide. -/
theorem split_at_first_eq (c : Char) :
    ∀ (a1 a2 b1 b2 : List Char), c ∉ a1 → c ∉ a2 →
      a1 ++ c :: b1 = a2 ++ c :: b2 → a1 = a2 ∧ b1 = b2 := by
  intro a1
  induction a1 with
  | nil =>
    intro a2 b1 b2 _ h2 heq
    cases a2 with
    | nil => simpa using heq
    | cons x a2t =>
      exfalso
      simp only [List.nil_append, List.cons_append, List.cons.injEq] at heq
      exact h2 (by rw [heq.1]; exact List.mem_cons_self x a2t)
  | cons x a1t ih =>
    intro a2 b1 b2 h1 h2 heq
    cases a2 with
    | nil =>
      exfalso
      simp only [List.nil_append, List.cons_append, List.cons.injEq] at heq
      exact h1 (by rw [heq.1]; exact List.mem_cons_self c a1t)
    | cons y a2t =>
      simp only [List.cons_append, List.cons.injEq] at heq
      obtain ⟨hxy, ht⟩ := heq
      have h1t : c ∉ a1t := fun hm => h1 (List.mem_cons_of_mem x hm)
      have h2t : c ∉ a2t := fun hm => h2 (List.mem_cons_of_mem y hm)
      obtain ⟨hA, hB⟩ := ih a2t b1 b2 h1t h2t ht
      exact ⟨by rw [hxy, hA], hB⟩

/-- The character list of the versioned directory name, spelled out. -/
theorem installVersionSuffix_data (releaseName : String) (m : PayloadMetadata) :
    (installVersionSuffix releaseName m).data =
      releaseName.data ++ '_' :: 'e' :: 'r' :: 't' :: 's' :: '-' ::
        (m.erts_version.data ++ '_' :: m.app_version.data) := by
  have hS : ("_erts-" : String).data = ['_', 'e', 'r', 't', 's', '-'] := by decide
  have hU : ("_" : String).data = ['_'] := by decide
  simp [installVersionSuffix, String.data_append, hS, hU]



/-- The versioned directory name determines the metadata when neither
app version contains an underscore (the erts version may). -/
theorem installVersionSuffix_inj (releaseName : String) (m1 m2 : PayloadMetadata)
    (hu1 : '_' ∉ m1.app_version.data) (hu2 : '_' ∉ m2.app_version.data)
    (heq : installVersionSuffix releaseName m1 = installVersionSuffix releaseName m2) :
    m1 = m2 := by
  have hd : (installVersionSuffix releaseName m1).data =
      (installVersionSuffix releaseName m2).data := by rw [heq]
  rw [installVersionSuffix_data, installVersionSuffix_data] at hd
  have hd2 := List.append_cancel_left hd
  simp only [List.cons.injEq, true_and] at hd2
  have hrev := congrArg List.reverse hd2
  simp only [List.reverse_append, List.reverse_cons, List.append_assoc,
    List.singleton_append] at hrev
  have hu1r : '_' ∉ m1.app_version.data.reverse := by
    simpa using hu1
  have hu2r : '_' ∉ m2.app_version.data.reverse := by
    simpa using hu2
  obtain ⟨hA, hE⟩ := split_at_first_eq '_' m1.app_version.data.reverse
    m2.app_version.data.reverse m1.erts_version.data.reverse
    m2.erts_version.data.reverse hu1r hu2r hrev
  have hA2 : m1.app_version = m2.app_version :=
    string_data_inj (List.reverse_injective hA)
  have hE2 : m1.erts_version = m2.erts_version :=
    string_data_inj (List.reverse_injective hE)
  cases m1
  cases m2
  simp only at hA2 hE2
  rw [hA2, hE2]



/-- When no field contains a path separator, the versioned directory
name is one single normal path component. -/
theorem parse_suffix_single (releaseName : String) (m : PayloadMetadata)
    (hn : '/' ∉ releaseName.data) (he : '/' ∉ m.erts_version.data)
    (ha : '/' ∉ m.app_version.data) :
    parsePath (installVersionSuffix releaseName m) =
      { absolute := false,
        components := [Component.normal (installVersionSuffix releaseName m)] } := by
  have hmem : '_' ∈ (installVersionSuffix releaseName m).data := by
    rw [installVersionSuffix_data]
    simp
  apply parsePath_single
  · rw [installVersionSuffix_data]
    simp [List.mem_append, List.mem_cons, hn, he, ha]
  · intro hh
    rw [hh] at hmem
    exact absurd hmem (List.not_mem_nil '_')
  · intro hh
    rw [hh] at hmem
    simp at hmem
  · intro hh
    rw [hh] at hmem
    simp at hmem

/-- Claim C2 amended: the map from metadata to the versioned directory
is deterministic always, and injective provided the version fields
contain no path separator and the app versions contain no underscore
(the separator `_` of the directory-name format). -/
theorem c2_versioned_dir_inj (releaseName : String) (base : FsPath)
    (m1 m2 : PayloadMetadata)
    (hn : '/' ∉ releaseName.data)
    (he1 : '/' ∉ m1.erts_version.data) (he2 : '/' ∉ m2.erts_version.data)
    (ha1 : '/' ∉ m1.app_version.data) (ha2 : '/' ∉ m2.app_version.data)
    (hu1 : '_' ∉ m1.app_version.data) (hu2 : '_' ∉ m2.app_version.data) :
    pushFinalInstallDir releaseName base m1 = pushFinalInstallDir releaseName base m2 ↔
      m1 = m2 := by
  constructor
  · intro h
    rw [pushFinalInstallDir, pushFinalInstallDir,
      parse_suffix_single releaseName m1 hn he1 ha1,
      parse_suffix_single releaseName m2 hn he2 ha2] at h
    simp only [FsPath.push] at h
    simp at h
    exact installVersionSuffix_inj releaseName m1 m2 hu1 hu2 h
  · intro h
    rw [h]

/-- Claim C2 is false as stated: underscores inside version fields make
two different metadata values collide on the same versioned directory
(`demo_erts-1_2_3` from both `(1_2, 3)` and `(1, 2_3)`). -/
theorem c2_counterexample :
    pushFinalInstallDir "demo" (parsePath "/base")
        { erts_version := "1_2", app_version := "3" } =
      pushFinalInstallDir "demo" (parsePath "/base")
        { erts_version := "1", app_version := "2_3" } ∧
    ({ erts_version := "1_2", app_version := "3" } : PayloadMetadata) ≠
      { erts_version := "1", app_version := "2_3" } := by
  exact ⟨by decide, by decide⟩

/-- Witness for `c2_versioned_dir_inj`: well-formed version strings and
different app versions give different versioned directories. -/
theorem c2_versioned_dir_inj_witness :
    pushFinalInstallDir "demo" (parsePath "/base")
        { erts_version := "13.0", app_version := "1.2.3" } ≠
      pushFinalInstallDir "demo" (parsePath "/base")
        { erts_version := "13.0", app_version := "1.2.4" } :=
  fun h => absurd
    ((c2_versioned_dir_inj "demo" (parsePath "/base")
        { erts_version := "13.0", app_version := "1.2.3" }
        { erts_version := "13.0", app_version := "1.2.4" }
        (by decide) (by decide) (by decide) (by decide) (by decide)
        (by decide) (by decide)).mp h)
    (by decide)

end Burrito
